import Mathlib

set_option linter.unusedVariables false

/-!
# Verification of the ailang DSL transpiler (`src/transpiler.cpp`)

This file gives a shallow embedding of the single-file C++ transpiler:

* the line-oriented DSL parser embedded in `main` (lines 138-151), including a
  faithful model of `std::istringstream` formatted extraction (`>>`) with the
  C++11 failure semantics: a failed *string* extraction leaves the target
  unchanged (the sentry fails before the erase), a failed *integer* extraction
  writes `0` when the numeric conversion runs and fails, and writes nothing
  (the variable keeps its previous — possibly indeterminate — value) when the
  stream is already failed or at end-of-input;
* the validation test of `main` (line 155);
* the Eigen C++ emitter `generateModelClass` (lines 8-35) and the numpy Python
  emitter embedded in `testPythonTranspilation` (lines 82-100), both as
  functions producing the exact list of emitted text chunks (one chunk per
  `<<`-statement line of the source).

The uninitialized local `int units;` of the layer branch is modelled by an
explicit parameter `junk : Int`: when the extraction fails before reaching the
numeric conversion, the appended units value is this indeterminate value.

Machine integers are modelled as `Int` (the documents in scope stay far below
`INT_MAX`, so the C++11 overflow clamping never triggers).
-/

/-- The whitespace test used by `operator>>` in the default C locale
(`isspace`): space, tab, newline, vertical tab, form feed, carriage return. -/
def isWs : Char → Bool
  | ' ' | '\t' | '\n' | '\x0b' | '\x0c' | '\r' => true
  | _ => false

/-- Decimal value of a digit string (most significant digit first). -/
def digitsVal (ds : List Char) : Nat :=
  ds.foldl (fun n c => 10 * n + (c.toNat - 48)) 0

/-- An `istringstream` in mid-extraction: remaining characters and fail flag. -/
def Strm : Type := List Char × Bool

/-- Formatted extraction `is >> s` for `std::string` (C++ [string.io]):
if the stream is failed the sentry fails and `cur` is kept; otherwise skip
whitespace; at end-of-input set failbit and keep `cur`; otherwise read the
maximal run of non-whitespace characters. -/
def readStr (cur : String) (s : Strm) : String × Strm :=
  if s.2 then (cur, s)
  else
    let cs := s.1.dropWhile isWs
    if cs.isEmpty then (cur, (cs, true))
    else (String.mk (cs.takeWhile (fun c => !(isWs c))),
          (cs.dropWhile (fun c => !(isWs c)), false))

/-- Formatted extraction `is >> n` for `int` (C++11 [istream.formatted]):
failed stream or end-of-input after whitespace ⇒ sentry failure, `cur` kept;
otherwise `num_get` consumes an optional sign and then decimal digits; if no
digit was consumed the conversion fails and **0 is stored** (C++11), else the
decoded value is stored. -/
def readInt (cur : Int) (s : Strm) : Int × Strm :=
  if s.2 then (cur, s)
  else
    let cs := s.1.dropWhile isWs
    if cs.isEmpty then (cur, (cs, true))
    else
      match cs with
      | '-' :: r =>
        let ds := r.takeWhile Char.isDigit
        if ds.isEmpty then (0, (r, true))
        else (-(Int.ofNat (digitsVal ds)), (r.dropWhile Char.isDigit, false))
      | '+' :: r =>
        let ds := r.takeWhile Char.isDigit
        if ds.isEmpty then (0, (r, true))
        else (Int.ofNat (digitsVal ds), (r.dropWhile Char.isDigit, false))
      | r =>
        let ds := r.takeWhile Char.isDigit
        if ds.isEmpty then (0, (r, true))
        else (Int.ofNat (digitsVal ds), (r.dropWhile Char.isDigit, false))

/-- The parser state of `main`: `modelName`, `inputSize` and `layers` are
declared once before the line loop (lines 134-136), so their values persist
across lines. -/
structure ParseState where
  modelName : String
  inputSize : Int
  layers : List (Int × String)
  deriving DecidableEq, Repr

/-- `iss >> key >> modelName` on a `model` line (line 142): the value of
`modelName` after the two extractions, starting from its current value. -/
def modelNameFrom (cur : String) (l : String) : String :=
  (readStr cur ((readStr "" (l.toList, false)).2)).1

/-- `iss >> key >> key >> key >> inputSize` on an `input` line (line 144):
the value of `inputSize` after three string extractions and one int
extraction, starting from its current value. -/
def inputSizeFrom (cur : Int) (l : String) : Int :=
  (readInt cur
    ((readStr "" ((readStr "" ((readStr "" (l.toList, false)).2)).2)).2)).1

/-- `iss >> key >> key >> units >> key >> key >> activation` on a `layer` line
(lines 146-148). `units` is a fresh *uninitialized* `int`, modelled by `junk`;
`activation` is a fresh empty `std::string`. Returns the pair that
`layers.emplace_back(units, activation)` appends (line 149). -/
def layerFrom (junk : Int) (l : String) : Int × String :=
  let s2 := ((readStr "" ((readStr "" (l.toList, false)).2)).2)
  let u := (readInt junk s2).1
  let s3 := (readInt junk s2).2
  let s5 := ((readStr "" ((readStr "" s3).2)).2)
  (u, (readStr "" s5).1)

/-- Character-level prefix test (first argument is the pattern). -/
def charsAtZero : List Char → List Char → Bool
  | [], _ => true
  | _ :: _, [] => false
  | k :: ks, c :: cs => if k = c then charsAtZero ks cs else false

/-- `line.find(kw) == 0`: the keyword occurs at position 0, i.e. is a
character-level prefix of the line. -/
def keyAtZero (kw l : String) : Bool :=
  charsAtZero kw.toList l.toList

/-- One iteration of the `while (std::getline(...))` loop of `main`
(lines 138-151): `line.find(kw) == 0` holds exactly when `kw` is a prefix of
the line, and the three branches update one field each. -/
def parseLine (junk : Int) (st : ParseState) (l : String) : ParseState :=
  if keyAtZero "model" l then
    { st with modelName := modelNameFrom st.modelName l }
  else if keyAtZero "input" l then
    { st with inputSize := inputSizeFrom st.inputSize l }
  else if keyAtZero "layer" l then
    { st with layers := st.layers ++ [layerFrom junk l] }
  else st

/-- The whole line loop of `main`, run on the document's lines (as split by
`std::getline`), starting from `modelName = ""`, `inputSize = 0`,
`layers = {}`. -/
def parseLines (junk : Int) (ls : List String) : ParseState :=
  ls.foldl (parseLine junk) ⟨"", 0, []⟩

/-- The validation test of `main` (line 155):
`!modelName.empty() && inputSize > 0 && !layers.empty()`. -/
def validSpec (st : ParseState) : Bool :=
  !(decide (st.modelName = "")) && decide (0 < st.inputSize) && !(st.layers.isEmpty)

/-- The per-layer body of the emission loop of `generateModelClass`
(lines 17-29), producing the exact text chunks written by each `outFile <<`
statement; `i` is the 0-based loop index. -/
def eigenForwardLines : Nat → List (Int × String) → List String
  | _, [] => []
  | i, (units, activation) :: rest =>
    ("        // Layer " ++ toString (i + 1) ++ "\n") ::
    ("        Eigen::MatrixXd W" ++ toString (i + 1) ++
      " = Eigen::MatrixXd::Random(" ++ toString units ++ ", x.cols());\n") ::
    ("        Eigen::VectorXd b" ++ toString (i + 1) ++
      " = Eigen::VectorXd::Random(" ++ toString units ++ ");\n") ::
    ("        x = (W" ++ toString (i + 1) ++ " * x).colwise() + b" ++
      toString (i + 1) ++ ";\n") ::
    ((if activation = "\"relu\"" then ["        x = x.cwiseMax(0.0);\n"]
      else if activation = "\"sigmoid\"" then
        ["        x = 1.0 / (1.0 + (-x.array()).exp());\n"]
      else []) ++ ("\n" :: eigenForwardLines (i + 1) rest))

/-- `generateModelClass` (lines 8-35) as the list of text chunks written to
`<modelName>.cpp`, in order. `inputSize` is a parameter of the C++ function
but is never used by it (the emitted code uses `x.cols()` instead). -/
def generateModelClass (modelName : String) (inputSize : Int)
    (layers : List (Int × String)) : List String :=
  ["#include <Eigen/Dense>\n\n",
   "class " ++ modelName ++ " \x7b\n",
   "public:\n",
   "    " ++ modelName ++ "() \x7b\x7d\n\n",
   "    Eigen::MatrixXd forward(const Eigen::MatrixXd& input) \x7b\n",
   "        Eigen::MatrixXd x = input;\n"]
  ++ eigenForwardLines 0 layers
  ++ ["        return x;\n", "    \x7d\n", "\x7d;\n"]

/-- The full Eigen output file content as one string. -/
def eigenText (modelName : String) (inputSize : Int)
    (layers : List (Int × String)) : String :=
  String.join (generateModelClass modelName inputSize layers)

/-- The `__init__` body of the numpy emitter (lines 86-89). The C++ writes
`np.random.rand(layers[i].first, i == 0 ? inputSize : layers[i - 1].first)`;
here `prev` carries exactly that second argument (the previous layer's units,
or `inputSize` for the first layer), and `i` the 0-based index. -/
def pyInitLines : Nat → Int → List (Int × String) → List String
  | _, _, [] => []
  | i, prev, (units, _) :: rest =>
    ("        self.W" ++ toString (i + 1) ++ " = np.random.rand(" ++
      toString units ++ ", " ++ toString prev ++ ")\n") ::
    ("        self.b" ++ toString (i + 1) ++ " = np.random.rand(" ++
      toString units ++ ")\n") ::
    pyInitLines (i + 1) units rest

/-- The `forward` body of the numpy emitter (lines 92-99). -/
def pyForwardLines : Nat → List (Int × String) → List String
  | _, [] => []
  | i, (_, activation) :: rest =>
    ("        x = np.dot(self.W" ++ toString (i + 1) ++ ", x) + self.b" ++
      toString (i + 1) ++ "\n") ::
    ((if activation = "\"relu\"" then ["        x = np.maximum(0, x)\n"]
      else if activation = "\"sigmoid\"" then ["        x = 1 / (1 + np.exp(-x))\n"]
      else []) ++ pyForwardLines (i + 1) rest)

/-- The numpy emitter of `testPythonTranspilation` (lines 82-100) as the list
of text chunks appended to `pythonCode`, parameterized by the model name,
input size and layers it reads (the C++ test instantiates them with fixed
values; the emission loops themselves are generic in these variables). -/
def pyGenerate (modelName : String) (inputSize : Int)
    (layers : List (Int × String)) : List String :=
  ["import numpy as np\n\n",
   "class " ++ modelName ++ ":\n",
   "    def __init__(self):\n"]
  ++ pyInitLines 0 inputSize layers
  ++ ["\n    def forward(self, x):\n", "        x = np.array(x)\n"]
  ++ pyForwardLines 0 layers
  ++ ["        return x\n"]

/-- The full numpy output as one string. -/
def pyText (modelName : String) (inputSize : Int)
    (layers : List (Int × String)) : String :=
  String.join (pyGenerate modelName inputSize layers)

/-- The file-argument run of `main` (lines 127-161): `fileOk` is whether the
input file opened; the result is the exit status together with the produced
artifact (`none` when generation is never invoked, `some (fileName, content)`
when `generateModelClass` runs). -/
def mainRun (fileOk : Bool) (junk : Int) (ls : List String) :
    Nat × Option (String × String) :=
  if !fileOk then (1, none)
  else
    let st := parseLines junk ls
    if validSpec st then
      (0, some (st.modelName ++ ".cpp", eigenText st.modelName st.inputSize st.layers))
    else (1, none)

/-! ## Claim-side renderings

The following definitions restate, in the spec's words, the per-layer block
structure and activation mapping of the two emitters; the theorems below
compare them with the source-derived emitters above. -/

/-- Activation text the Eigen emitter attaches to a layer: the spec's mapping
`"relu"` ⇒ elementwise max with zero, `"sigmoid"` ⇒ logistic expression, any
other string ⇒ nothing. The activation strings carry the surrounding quote
characters exactly as the parser stores them. -/
def eigenActFor (a : String) : List String :=
  if a = "\"relu\"" then ["        x = x.cwiseMax(0.0);\n"]
  else if a = "\"sigmoid\"" then ["        x = 1.0 / (1.0 + (-x.array()).exp());\n"]
  else []

/-- Activation text the numpy emitter attaches to a layer (same mapping). -/
def pyActFor (a : String) : List String :=
  if a = "\"relu\"" then ["        x = np.maximum(0, x)\n"]
  else if a = "\"sigmoid\"" then ["        x = 1 / (1 + np.exp(-x))\n"]
  else []

/-- Per-layer block decomposition of the Eigen forward body: each layer
contributes one comment, exactly one weight declaration with row count
`units` and column argument `x.cols()`, exactly one bias declaration of
shape `units`, the affine transform, then its activation lines, then a
blank line. -/
def eigenBlocks : Nat → List (Int × String) → List (List String)
  | _, [] => []
  | i, (units, activation) :: rest =>
    (["        // Layer " ++ toString (i + 1) ++ "\n",
      "        Eigen::MatrixXd W" ++ toString (i + 1) ++
        " = Eigen::MatrixXd::Random(" ++ toString units ++ ", x.cols());\n",
      "        Eigen::VectorXd b" ++ toString (i + 1) ++
        " = Eigen::VectorXd::Random(" ++ toString units ++ ");\n",
      "        x = (W" ++ toString (i + 1) ++ " * x).colwise() + b" ++
        toString (i + 1) ++ ";\n"]
     ++ eigenActFor activation ++ ["\n"]) :: eigenBlocks (i + 1) rest

/-- Per-layer block decomposition of the numpy forward body: the affine
transform followed by that layer's activation lines. -/
def pyFwdBlocks : Nat → List (Int × String) → List (List String)
  | _, [] => []
  | i, (_, activation) :: rest =>
    (("        x = np.dot(self.W" ++ toString (i + 1) ++ ", x) + self.b" ++
       toString (i + 1) ++ "\n") :: pyActFor activation) :: pyFwdBlocks (i + 1) rest

/-- Rendering of the spec's round-trip shape property for the numpy profile:
layer `i` (1-indexed) contributes exactly one weight declaration of shape
`(units_i, prev)` — where `prev` is the previous layer's units, or the input
size for the first layer — and one bias declaration of shape `(units_i)`. -/
def specPyInitPairs : Nat → Int → List (Int × String) → List (List String)
  | _, _, [] => []
  | i, prev, (units, _) :: rest =>
    ["        self.W" ++ toString (i + 1) ++ " = np.random.rand(" ++
       toString units ++ ", " ++ toString prev ++ ")\n",
     "        self.b" ++ toString (i + 1) ++ " = np.random.rand(" ++
       toString units ++ ")\n"] :: specPyInitPairs (i + 1) units rest

/-! ## Helper lemmas -/

theorem eigenForwardLines_eq_join (ls : List (Int × String)) :
    ∀ i, eigenForwardLines i ls = (eigenBlocks i ls).flatten := by
  induction ls with
  | nil => intro i; rfl
  | cons hd tl ih =>
    intro i
    obtain ⟨u, a⟩ := hd
    simp only [eigenForwardLines, eigenBlocks, List.flatten, eigenActFor, ih]
    by_cases h1 : a = "\"relu\""
    · simp [h1]
    · by_cases h2 : a = "\"sigmoid\"" <;> simp [h1, h2]

theorem pyForwardLines_eq_join (ls : List (Int × String)) :
    ∀ i, pyForwardLines i ls = (pyFwdBlocks i ls).flatten := by
  induction ls with
  | nil => intro i; rfl
  | cons hd tl ih =>
    intro i
    obtain ⟨u, a⟩ := hd
    simp only [pyForwardLines, pyFwdBlocks, List.flatten, pyActFor, ih]
    by_cases h1 : a = "\"relu\""
    · simp [h1]
    · by_cases h2 : a = "\"sigmoid\"" <;> simp [h1, h2]

theorem pyInitLines_eq_join (ls : List (Int × String)) :
    ∀ i prev, pyInitLines i prev ls = (specPyInitPairs i prev ls).flatten := by
  induction ls with
  | nil => intro i prev; rfl
  | cons hd tl ih =>
    intro i prev
    obtain ⟨u, a⟩ := hd
    simp [pyInitLines, specPyInitPairs, List.flatten, ih]

theorem specPyInitPairs_length (ls : List (Int × String)) :
    ∀ i prev, (specPyInitPairs i prev ls).length = ls.length := by
  induction ls with
  | nil => intro i prev; rfl
  | cons hd tl ih =>
    intro i prev
    obtain ⟨u, a⟩ := hd
    simp [specPyInitPairs, ih]

theorem eigenBlocks_length (ls : List (Int × String)) :
    ∀ i, (eigenBlocks i ls).length = ls.length := by
  induction ls with
  | nil => intro i; rfl
  | cons hd tl ih =>
    intro i
    obtain ⟨u, a⟩ := hd
    simp [eigenBlocks, ih]

theorem parseLine_modelName_eq (junk : Int) (st : ParseState) (l : String)
    (h : keyAtZero "model" l = false) :
    (parseLine junk st l).modelName = st.modelName := by
  simp only [parseLine, h, Bool.false_eq_true, if_false]
  split
  · rfl
  · split
    · rfl
    · rfl

theorem parseLine_inputSize_eq (junk : Int) (st : ParseState) (l : String)
    (h : keyAtZero "input" l = false) :
    (parseLine junk st l).inputSize = st.inputSize := by
  simp only [parseLine, h, Bool.false_eq_true, if_false]
  split
  · rfl
  · split
    · rfl
    · rfl

theorem parseLine_layers_eq (junk : Int) (st : ParseState) (l : String)
    (h : keyAtZero "layer" l = false) :
    (parseLine junk st l).layers = st.layers := by
  simp only [parseLine, h, Bool.false_eq_true, if_false]
  split
  · rfl
  · split
    · rfl
    · rfl

theorem foldl_modelName_eq (junk : Int) :
    ∀ (ls : List String) (st : ParseState),
      (∀ l ∈ ls, keyAtZero "model" l = false) →
      (ls.foldl (parseLine junk) st).modelName = st.modelName := by
  intro ls
  induction ls with
  | nil => intro st h; rfl
  | cons hd tl ih =>
    intro st h
    simp only [List.foldl_cons]
    rw [ih _ fun l hl => h l (List.mem_cons_of_mem _ hl),
      parseLine_modelName_eq _ _ _ (h hd (List.mem_cons_self _ _))]

theorem foldl_inputSize_eq (junk : Int) :
    ∀ (ls : List String) (st : ParseState),
      (∀ l ∈ ls, keyAtZero "input" l = false) →
      (ls.foldl (parseLine junk) st).inputSize = st.inputSize := by
  intro ls
  induction ls with
  | nil => intro st h; rfl
  | cons hd tl ih =>
    intro st h
    simp only [List.foldl_cons]
    rw [ih _ fun l hl => h l (List.mem_cons_of_mem _ hl),
      parseLine_inputSize_eq _ _ _ (h hd (List.mem_cons_self _ _))]

theorem foldl_layers_eq (junk : Int) :
    ∀ (ls : List String) (st : ParseState),
      (∀ l ∈ ls, keyAtZero "layer" l = false) →
      (ls.foldl (parseLine junk) st).layers = st.layers := by
  intro ls
  induction ls with
  | nil => intro st h; rfl
  | cons hd tl ih =>
    intro st h
    simp only [List.foldl_cons]
    rw [ih _ fun l hl => h l (List.mem_cons_of_mem _ hl),
      parseLine_layers_eq _ _ _ (h hd (List.mem_cons_self _ _))]

theorem parseLine_model_sets (junk : Int) (st : ParseState) (l : String)
    (h : keyAtZero "model" l = true) :
    (parseLine junk st l).modelName = modelNameFrom st.modelName l := by
  simp [parseLine, h]

theorem parseLine_input_sets (junk : Int) (st : ParseState) (l : String)
    (hm : keyAtZero "model" l = false) (h : keyAtZero "input" l = true) :
    (parseLine junk st l).inputSize = inputSizeFrom st.inputSize l := by
  simp [parseLine, hm, h]

theorem layer_not_model_input (l : String) (h : keyAtZero "layer" l = true) :
    keyAtZero "model" l = false ∧ keyAtZero "input" l = false := by
  unfold keyAtZero at h ⊢
  rw [show ("layer".toList) = 'l' :: "ayer".toList from rfl] at h
  rw [show ("model".toList) = 'm' :: "odel".toList from rfl,
    show ("input".toList) = 'i' :: "nput".toList from rfl]
  cases hcs : l.toList with
  | nil => rw [hcs] at h; simp [charsAtZero] at h
  | cons c cs =>
    rw [hcs] at h
    rw [charsAtZero] at h
    by_cases hc : ('l' : Char) = c
    · subst hc
      refine ⟨?_, ?_⟩
      · rw [charsAtZero, if_neg (by decide)]
      · rw [charsAtZero, if_neg (by decide)]
    · rw [if_neg hc] at h
      exact absurd h (by simp)

theorem parseLine_layer_appends (junk : Int) (st : ParseState) (l : String)
    (h : keyAtZero "layer" l = true) :
    parseLine junk st l = { st with layers := st.layers ++ [layerFrom junk l] } := by
  obtain ⟨hm, hi⟩ := layer_not_model_input l h
  simp [parseLine, hm, hi, h]

/-! ## Claims -/

/-- The document of claim C1 / spec Scenario 1, each line unindented. -/
def canonicalDoc : List String :=
  ["model TestModel \x7b", "input: size=4",
   "layer: units=8, activation=\"relu\"",
   "layer: units=2, activation=\"sigmoid\"", "\x7d"]

/-- C1: the claim states that parsing the canonical document succeeds with
name `TestModel`, input size 4 and layers `[(8, relu), (2, sigmoid)]`. The
code does not do this: `size=4` is a single token, so the positional
extraction `iss >> key >> key >> key >> inputSize` fails before reaching the
integer and `inputSize` stays 0; each layer line leaves `units = 0` (the
integer read hits `activation=...` and the failed conversion stores 0) and
`activation = ""`. Validation therefore rejects the document and `main`
exits with status 1, generating nothing — contradicting the claim and the
assertions of the program's own `testParser`. -/
theorem claim1_canonical_document_rejected :
    ∀ junk : Int,
      parseLines junk canonicalDoc = ⟨"TestModel", 0, [(0, ""), (0, "")]⟩
      ∧ validSpec (parseLines junk canonicalDoc) = false
      ∧ mainRun true junk canonicalDoc = (1, none) := by
  intro junk
  exact ⟨rfl, rfl, rfl⟩

/-- C2 counterexample: for the spec `(name TestModel, s = 4,
layers [(8, relu), (2, sigmoid)])` the Eigen profile does **not** declare
weight 2 with shape `(2, 8)` (nor weight 1 with `(8, 4)`); it declares
`Random(2, x.cols())` instead, so the claim's shape property fails for the
Eigen emitter. -/
theorem claim2_eigen_shape_counterexample :
    "        Eigen::MatrixXd W2 = Eigen::MatrixXd::Random(2, 8);\n" ∉
        generateModelClass "TestModel" 4 [(8, "\"relu\""), (2, "\"sigmoid\"")]
    ∧ "        Eigen::MatrixXd W1 = Eigen::MatrixXd::Random(8, 4);\n" ∉
        generateModelClass "TestModel" 4 [(8, "\"relu\""), (2, "\"sigmoid\"")]
    ∧ "        Eigen::MatrixXd W2 = Eigen::MatrixXd::Random(2, x.cols());\n" ∈
        generateModelClass "TestModel" 4 [(8, "\"relu\""), (2, "\"sigmoid\"")] :=
  ⟨by decide, by decide, by decide⟩

/-- C2 (amended): the numpy profile declares exactly `n` weight/bias pairs
with weight `i` of shape `(u_i, u_(i-1))` for `i > 1` and `(u_1, s)` for
`i = 1`, and bias `i` of shape `(u_i)` — its `__init__` body is exactly the
flattening of the spec-side pair list `specPyInitPairs`, which has one entry
per layer. The Eigen profile declares exactly `n` weight/bias pairs with the
claimed row count `u_i` and bias shape `(u_i)`, but emits the runtime
expression `x.cols()` as each weight's column count instead of the literal
previous dimension. -/
theorem claim2_weight_bias_shapes :
    ∀ (s : Int) (layers : List (Int × String)),
      pyInitLines 0 s layers = (specPyInitPairs 0 s layers).flatten
      ∧ (specPyInitPairs 0 s layers).length = layers.length
      ∧ eigenForwardLines 0 layers = (eigenBlocks 0 layers).flatten
      ∧ (eigenBlocks 0 layers).length = layers.length := by
  intro s layers
  exact ⟨pyInitLines_eq_join layers 0 s, specPyInitPairs_length layers 0 s,
    eigenForwardLines_eq_join layers 0, eigenBlocks_length layers 0⟩

/-- C3: in both profiles each layer's emitted block is its affine transform
followed immediately by the activation lines of that layer (the block
decompositions `eigenBlocks` / `pyFwdBlocks`), and the activation text is:
the stored string `"relu"` (quotes included, exact and case-sensitive) ⇒ the
elementwise max-with-zero line; `"sigmoid"` ⇒ the logistic
`1 / (1 + exp(-x))` line; any other string ⇒ no activation line. -/
theorem claim3_activation_mapping :
    (∀ (i : Nat) (layers : List (Int × String)),
      eigenForwardLines i layers = (eigenBlocks i layers).flatten
      ∧ pyForwardLines i layers = (pyFwdBlocks i layers).flatten)
    ∧ eigenActFor "\"relu\"" = ["        x = x.cwiseMax(0.0);\n"]
    ∧ eigenActFor "\"sigmoid\"" = ["        x = 1.0 / (1.0 + (-x.array()).exp());\n"]
    ∧ pyActFor "\"relu\"" = ["        x = np.maximum(0, x)\n"]
    ∧ pyActFor "\"sigmoid\"" = ["        x = 1 / (1 + np.exp(-x))\n"]
    ∧ (∀ a : String, a ≠ "\"relu\"" → a ≠ "\"sigmoid\"" →
        eigenActFor a = [] ∧ pyActFor a = []) := by
  refine ⟨fun i layers =>
      ⟨eigenForwardLines_eq_join layers i, pyForwardLines_eq_join layers i⟩,
    rfl, rfl, rfl, rfl, fun a h1 h2 => ⟨?_, ?_⟩⟩
  · simp [eigenActFor, h1, h2]
  · simp [pyActFor, h1, h2]

/-- Witness for C3 at the unrecognized activation string `"tanh"`. -/
theorem claim3_activation_mapping_witness :
    eigenActFor "\"tanh\"" = [] ∧ pyActFor "\"tanh\"" = [] :=
  claim3_activation_mapping.2.2.2.2.2 "\"tanh\"" (by decide) (by decide)

/-- C4: a document with no `model`-classified line leaves the name empty and
fails validation; a document whose final input size is `≤ 0` fails
validation; a document with no `layer`-classified line leaves the layer list
empty and fails validation. In each case `main` prints the unified
"invalid input format" diagnostic, returns exit status 1, and never invokes
generation (no artifact). -/
theorem claim4_validation_rejections :
    ∀ (junk : Int) (ls : List String),
      ((∀ l ∈ ls, keyAtZero "model" l = false) →
        validSpec (parseLines junk ls) = false ∧ mainRun true junk ls = (1, none))
      ∧ ((parseLines junk ls).inputSize ≤ 0 →
        validSpec (parseLines junk ls) = false ∧ mainRun true junk ls = (1, none))
      ∧ ((∀ l ∈ ls, keyAtZero "layer" l = false) →
        validSpec (parseLines junk ls) = false ∧ mainRun true junk ls = (1, none)) := by
  intro junk ls
  have hm : ∀ (h : validSpec (parseLines junk ls) = false),
      mainRun true junk ls = (1, none) := by
    intro h
    simp [mainRun, h]
  refine ⟨fun h => ?_, fun h => ?_, fun h => ?_⟩
  · have hname : (parseLines junk ls).modelName = "" := by
      simpa [parseLines] using foldl_modelName_eq junk ls ⟨"", 0, []⟩ h
    have hvv : validSpec (parseLines junk ls) = false := by simp [validSpec, hname]
    exact ⟨hvv, hm hvv⟩
  · have hd : decide (0 < (parseLines junk ls).inputSize) = false :=
      decide_eq_false (by omega)
    have hvv : validSpec (parseLines junk ls) = false := by simp [validSpec, hd]
    exact ⟨hvv, hm hvv⟩
  · have hlay : (parseLines junk ls).layers = [] := by
      simpa [parseLines] using foldl_layers_eq junk ls ⟨"", 0, []⟩ h
    have hvv : validSpec (parseLines junk ls) = false := by simp [validSpec, hlay]
    exact ⟨hvv, hm hvv⟩

/-- Witness for C4: the empty-`model` and no-`layer` rejections applied at
concrete documents. -/
theorem claim4_validation_rejections_witness :
    (validSpec (parseLines 0 ["input: size=0"]) = false
      ∧ mainRun true 0 ["input: size=0"] = (1, none))
    ∧ (validSpec (parseLines 0 ["model M \x7b", "input: size = 4"]) = false
      ∧ mainRun true 0 ["model M \x7b", "input: size = 4"] = (1, none)) :=
  ⟨(claim4_validation_rejections 0 ["input: size=0"]).1 (by decide),
   (claim4_validation_rejections 0 ["model M \x7b", "input: size = 4"]).2.2 (by decide)⟩

/-- The exact lines of the raw-string document that the program's own
`testParser` feeds to the same parsing loop (lines 38-44): every significant
line is indented. -/
def testParserDoc : List String :=
  ["", "        model TestModel \x7b", "            input: size=4",
   "            layer: units=8, activation=\"relu\"",
   "            layer: units=2, activation=\"sigmoid\"", "        \x7d", "    "]

/-- C5: the claim (and the spec's grammar) says classification is by first
significant token, so leading whitespace never changes the parse. The code
instead requires the keyword at character position 0 (`line.find(kw) == 0`),
so every indented line is silently skipped: the program's own `testParser`
document parses to the empty state (its asserts would fail), and prefixing a
single space to a `model` line changes the resulting state. -/
theorem claim5_indentation_breaks_parse :
    ∀ junk : Int,
      parseLines junk testParserDoc = ⟨"", 0, []⟩
      ∧ mainRun true junk testParserDoc = (1, none)
      ∧ parseLines junk ["model A \x7b"] ≠ parseLines junk [" model A \x7b"] := by
  intro junk
  refine ⟨rfl, rfl, ?_⟩
  intro h
  have hne : ("A" : String) = "" := congrArg ParseState.modelName h
  exact absurd hne (by decide)

/-- C6: with a file argument, the exit status is 0 exactly when the file
opened and the parsed spec passed validation; otherwise it is 1, and in
every failing run no artifact is produced (generation is never invoked). -/
theorem claim6_exit_status :
    ∀ (fileOk : Bool) (junk : Int) (ls : List String),
      ((mainRun fileOk junk ls).1 = 0 ↔
        fileOk = true ∧ validSpec (parseLines junk ls) = true)
      ∧ ((mainRun fileOk junk ls).1 = 0 ∨ (mainRun fileOk junk ls).1 = 1)
      ∧ ((mainRun fileOk junk ls).1 = 1 ↔ (mainRun fileOk junk ls).2 = none)
      ∧ (fileOk = false → mainRun fileOk junk ls = (1, none)) := by
  intro fileOk junk ls
  cases fileOk <;> cases hv : validSpec (parseLines junk ls) <;>
    simp [mainRun, hv]

/-- Witness for C6: a failed open exits 1; a valid document exits 0. -/
theorem claim6_exit_status_witness :
    (mainRun false 0 []).1 = 1
    ∧ (mainRun true 0
        ["model M \x7b", "input: size = 4",
         "layer: units= 2, activation= \"sigmoid\""]).1 = 0 :=
  ⟨by rw [(claim6_exit_status false 0 []).2.2.2 rfl],
   (claim6_exit_status true 0
      ["model M \x7b", "input: size = 4",
       "layer: units= 2, activation= \"sigmoid\""]).1.mpr ⟨rfl, by decide⟩⟩

/-- C7 counterexample: this document passes the code's validation, yet its
single layer has `units = 0` (the failed positional integer read stored 0),
violating the claimed `units > 0` invariant. -/
theorem claim7_units_invariant_counterexample :
    validSpec (parseLines 0 ["model M \x7b", "input: size = 4",
      "layer: units=8, activation=\"relu\"", "\x7d"]) = true
    ∧ (parseLines 0 ["model M \x7b", "input: size = 4",
      "layer: units=8, activation=\"relu\"", "\x7d"]).layers = [(0, "")]
    ∧ ¬ (0 < (0 : Int)) :=
  ⟨rfl, rfl, by decide⟩

/-- C7 (amended): a spec the pipeline accepts satisfies exactly the three
checked invariants — non-empty name, positive input size, non-empty layer
list; positivity of each layer's `units` is **not** guaranteed. -/
theorem claim7_validation_invariants :
    ∀ (junk : Int) (ls : List String),
      validSpec (parseLines junk ls) = true →
      (parseLines junk ls).modelName ≠ "" ∧ 0 < (parseLines junk ls).inputSize
      ∧ (parseLines junk ls).layers ≠ [] := by
  intro junk ls h
  unfold validSpec at h
  rw [Bool.and_eq_true, Bool.and_eq_true] at h
  obtain ⟨⟨ha, hb⟩, hc⟩ := h
  refine ⟨?_, of_decide_eq_true hb, ?_⟩
  · intro hh
    rw [hh] at ha
    simp at ha
  · intro hh
    rw [hh] at hc
    simp at hc

/-- Witness for C7 (amended) at a concrete accepted document. -/
theorem claim7_validation_invariants_witness :
    (parseLines 0 ["model M \x7b", "input: size = 4",
      "layer: units= 3, activation= \"relu\""]).modelName ≠ ""
    ∧ 0 < (parseLines 0 ["model M \x7b", "input: size = 4",
      "layer: units= 3, activation= \"relu\""]).inputSize
    ∧ (parseLines 0 ["model M \x7b", "input: size = 4",
      "layer: units= 3, activation= \"relu\""]).layers ≠ [] :=
  claim7_validation_invariants 0 ["model M \x7b", "input: size = 4",
    "layer: units= 3, activation= \"relu\""] (by decide)

/-- C8: generation is a pure total function of the spec — equal inputs give
character-for-character equal output for both profiles, and it never fails:
for every spec (validated or not) each emitter produces text beginning with
its fixed prologue. -/
theorem claim8_generation_deterministic :
    (∀ (n1 n2 : String) (s1 s2 : Int) (ls1 ls2 : List (Int × String)),
      n1 = n2 → s1 = s2 → ls1 = ls2 →
      eigenText n1 s1 ls1 = eigenText n2 s2 ls2
      ∧ pyText n1 s1 ls1 = pyText n2 s2 ls2)
    ∧ (∀ (n : String) (s : Int) (ls : List (Int × String)),
      (generateModelClass n s ls).head? = some "#include <Eigen/Dense>\n\n"
      ∧ (pyGenerate n s ls).head? = some "import numpy as np\n\n") := by
  constructor
  · intro n1 n2 s1 s2 ls1 ls2 h1 h2 h3
    subst h1
    subst h2
    subst h3
    exact ⟨rfl, rfl⟩
  · intro n s ls
    exact ⟨rfl, rfl⟩

/-- Witness for C8 at a concrete spec. -/
theorem claim8_generation_deterministic_witness :
    eigenText "M" 1 [(2, "\"relu\"")] = eigenText "M" 1 [(2, "\"relu\"")]
    ∧ pyText "M" 1 [(2, "\"relu\"")] = pyText "M" 1 [(2, "\"relu\"")] :=
  claim8_generation_deterministic.1 "M" "M" 1 1 [(2, "\"relu\"")] [(2, "\"relu\"")]
    rfl rfl rfl

/-- C9: when several `model` (resp. `input`) lines are recognized, the last
one whose extraction succeeds determines the final value, and no error is
reported: if line `l` extracts name `n` (resp. size `v`) regardless of the
previous value, and no later line is `model`- (resp. `input`-) classified,
the parse result carries `n` (resp. `v`). -/
theorem claim9_last_declaration_wins :
    ∀ (junk : Int) (ls1 ls2 : List String) (l n : String) (v : Int),
      (keyAtZero "model" l = true → (∀ cur, modelNameFrom cur l = n) →
        (∀ l' ∈ ls2, keyAtZero "model" l' = false) →
        (parseLines junk (ls1 ++ l :: ls2)).modelName = n)
      ∧ (keyAtZero "model" l = false → keyAtZero "input" l = true →
        (∀ cur, inputSizeFrom cur l = v) →
        (∀ l' ∈ ls2, keyAtZero "input" l' = false) →
        (parseLines junk (ls1 ++ l :: ls2)).inputSize = v) := by
  intro junk ls1 ls2 l n v
  constructor
  · intro hl hev hrest
    unfold parseLines
    rw [List.foldl_append, List.foldl_cons, foldl_modelName_eq junk ls2 _ hrest,
      parseLine_model_sets junk _ l hl]
    exact hev _
  · intro hm hl hev hrest
    unfold parseLines
    rw [List.foldl_append, List.foldl_cons, foldl_inputSize_eq junk ls2 _ hrest,
      parseLine_input_sets junk _ l hm hl]
    exact hev _

/-- Witness for C9: duplicate `model` and `input` declarations, last wins. -/
theorem claim9_last_declaration_wins_witness :
    (parseLines 0 (["model A \x7b"] ++ "model B \x7b" :: ["input: size = 4"])).modelName = "B"
    ∧ (parseLines 0 (["input: size = 2"] ++ "input: size = 5" ::
        ["layer: units= 3, activation= \"x\""])).inputSize = 5 :=
  ⟨(claim9_last_declaration_wins 0 ["model A \x7b"] ["input: size = 4"]
      "model B \x7b" "B" 0).1 (by decide) (fun cur => rfl) (by decide),
   (claim9_last_declaration_wins 0 ["input: size = 2"]
      ["layer: units= 3, activation= \"x\""] "input: size = 5" "" 5).2
      (by decide) (by decide) (fun cur => rfl) (by decide)⟩

/-- C10 counterexample: on the layer line `"layer:"` the stream is exhausted
before the integer read, so nothing is written to the uninitialized `units`
and the appended pair carries the indeterminate value (modelled as 7 here),
not the claimed `(0, "")`. -/
theorem claim10_uninitialized_units_counterexample :
    (parseLines 7 ["layer:"]).layers = [(7, "")]
    ∧ ((7 : Int), ("" : String)) ≠ ((0 : Int), "") :=
  ⟨rfl, by decide⟩

/-- C10 (amended): every `layer`-classified line appends exactly one layer
and changes nothing else, with no error. When the units extraction reaches
the numeric conversion and fails (as on the canonical malformed shape
`units=8,`), the appended layer is `(0, "")`; if the stream fails before the
conversion the units value is the uninitialized int's indeterminate value.
A spec containing such a `(0, "")` layer still passes validation, which only
requires the layer list to be non-empty. -/
theorem claim10_layer_always_appended :
    ∀ (junk : Int) (st : ParseState) (l : String),
      (keyAtZero "layer" l = true →
        parseLine junk st l = { st with layers := st.layers ++ [layerFrom junk l] })
      ∧ layerFrom junk "layer: units=8, activation=\"relu\"" = (0, "")
      ∧ validSpec (parseLines junk
          ["model M \x7b", "input: size = 4",
           "layer: units=8, activation=\"relu\""]) = true
      ∧ (parseLines junk
          ["model M \x7b", "input: size = 4",
           "layer: units=8, activation=\"relu\""]).layers = [(0, "")] := by
  intro junk st l
  exact ⟨fun h => parseLine_layer_appends junk st l h, rfl, rfl, rfl⟩

/-- Witness for C10 (amended) at a concrete layer line. -/
theorem claim10_layer_always_appended_witness :
    parseLine 0 ⟨"", 0, []⟩ "layer: units=8, activation=\"relu\"" =
      { modelName := "", inputSize := 0,
        layers := [] ++ [layerFrom 0 "layer: units=8, activation=\"relu\""] } :=
  (claim10_layer_always_appended 0 ⟨"", 0, []⟩
    "layer: units=8, activation=\"relu\"").1 (by decide)
